import Mathlib

/-!
Shallow embedding of `physrisk/data/hazard_data_provider.py`: scenario
normalization, hazard-family source-path resolvers, the generic
inventory-backed resolver, and the acute/chronic hazard data providers.

Python exceptions are modelled with `Except HazardError`; the spec's error
taxonomy groups the model-validation failures (ValueError on a model string,
AssertionError, KeyError, IndexError) under InvalidModel, the scenario
ValueError under InvalidScenario, and the constructor ValueError under
InvalidConfiguration.
-/

/-- Error taxonomy of the hazard-data core (spec section 7). Each constructor
carries the message or offending value from the corresponding Python raise. -/
inductive HazardError where
  | invalidScenario (scenario : String)
  | invalidModel (msg : String)
  | invalidConfiguration (msg : String)
  deriving Repr, DecidableEq

deriving instance DecidableEq for Except

/-- Helper for `py_split`: splits a character list at every occurrence of
`sep`, accumulating the current component in reverse in `acc`. -/
def py_split_aux (sep : Char) : List Char → List Char → List (List Char)
  | [], acc => [acc.reverse]
  | c :: cs, acc =>
    if c = sep then acc.reverse :: py_split_aux sep cs []
    else py_split_aux sep cs (c :: acc)

/-- Embedding of Python `str.split(sep)` for a one-character separator, as used
by the resolvers (`model.split("/")`). Like Python, `"".split("/") = [""]` and
adjacent separators yield empty components. -/
def py_split (sep : Char) (s : String) : List String :=
  (py_split_aux sep s.data []).map String.mk

/-- Embedding of Python `str.startswith(p)`. -/
def py_startswith (p s : String) : Bool :=
  List.isPrefixOf p.data s.data

/-- Translation of `cmip6_scenario_to_rcp`: maps CMIP6 ssp identifiers to the
RCP convention, passes RCP identifiers and "historical" through, and raises
ValueError (InvalidScenario) on anything else. -/
def cmip6_scenario_to_rcp (scenario : String) : Except HazardError String :=
  if scenario = "ssp126" then .ok "rcp2p6"
  else if scenario = "ssp245" then .ok "rcp4p5"
  else if scenario = "ssp585" then .ok "rcp8p5"
  else if scenario ∉ ["rcp2p6", "rcp4p5", "rcp8p5", "historical"] then
    .error (.invalidScenario scenario)
  else .ok scenario

/-- Embedding of `os.path.join(a, b)` for the paths this module builds: `a` is
the non-empty family namespace and `b` a relative segment, so the join is
concatenation with a slash separator. -/
def ospath_join (a b : String) : String :=
  a ++ "/" ++ b

/-- Translation of `_wri_inundation_prefix()`: the WRI family namespace. -/
def wri_inundation_namespace : String :=
  "inundation/wri/v2"

/-- Translation of the `_percentiles_map` dict: Python `dict[key]` lookup is
modelled with `Option`, `none` standing for KeyError. -/
def percentiles_map (perc : String) : Option String :=
  if perc = "95" then some "0"
  else if perc = "5" then some "0_perc_05"
  else if perc = "50" then some "0_perc_50"
  else none

/-- Translation of the `_subsidence_set` set literal. -/
def subsidence_set : List String :=
  ["wtsub", "nosub"]

/-- Translation of `get_source_path_wri_coastal_inundation`. The model string
is split on "/": the first component must be a subsidence token, the second
(defaulting to "95") selects the percentile suffix. The f-string evaluates
`cmip6_scenario_to_rcp(scenario)` before the percentile dict lookup, so an
invalid scenario raises before an invalid percentile does. The split list is
never empty, so the `[]` arm is unreachable. -/
def get_source_path_wri_coastal_inundation (model scenario : String) (year : Int) :
    Except HazardError String :=
  match py_split '/' model with
  | [] => .error (.invalidModel "unreachable: split is never empty")
  | sub :: rest =>
    if sub ∈ subsidence_set then
      let perc := match rest with
        | [] => "95"
        | p :: _ => p
      match cmip6_scenario_to_rcp scenario with
      | .error e => .error e
      | .ok rcp =>
        match percentiles_map perc with
        | none => .error (.invalidModel ("KeyError: " ++ perc))
        | some suffix =>
          .ok (ospath_join wri_inundation_namespace
            ("inuncoast_" ++ rcp ++ "_" ++ sub ++ "_" ++ toString year ++ "_" ++ suffix))
    else
      .error (.invalidModel
        "expected model input of the form subsidence/percentile, e.g. wtsub/95, nosub/5, wtsub/50")

/-- Translation of `get_source_path_wri_riverine_inundation`: the model string
is embedded in the path unvalidated. -/
def get_source_path_wri_riverine_inundation (model scenario : String) (year : Int) :
    Except HazardError String :=
  match cmip6_scenario_to_rcp scenario with
  | .error e => .error e
  | .ok rcp =>
    .ok (ospath_join wri_inundation_namespace
      ("inunriver_" ++ rcp ++ "_" ++ model ++ "_" ++ toString year))

/-- Translation of `_osc_chronic_heat_prefix()`: the OS-C chronic heat family
namespace. -/
def osc_chronic_heat_namespace : String :=
  "chronic_heat/osc/v1"

/-- Translation of `get_source_path_osc_chronic_heat`. `type, *levels =
model.split("/")`; for "mean_degree_days" the source evaluates `levels[0]` and
`levels[1]` inside asserts, so a missing level raises IndexError and an invalid
level AssertionError — both model-validation failures (InvalidModel). The
scenario is embedded verbatim, with no RCP normalization. -/
def get_source_path_osc_chronic_heat (model scenario : String) (year : Int) :
    Except HazardError String :=
  match py_split '/' model with
  | [] => .error (.invalidModel "unreachable: split is never empty")
  | ty :: levels =>
    if ty = "mean_degree_days" then
      match levels with
      | [] => .error (.invalidModel "IndexError: list index out of range")
      | [l0] =>
        if l0 ∈ ["above", "below"] then
          .error (.invalidModel "IndexError: list index out of range")
        else .error (.invalidModel "AssertionError: above or below")
      | l0 :: l1 :: _ =>
        if l0 ∈ ["above", "below"] then
          if l1 ∈ ["18c", "32c"] then
            .ok (osc_chronic_heat_namespace ++ "/" ++
              (ty ++ "_" ++ l0 ++ "_" ++ l1 ++ "_" ++ scenario ++ "_" ++ toString year))
          else .error (.invalidModel "AssertionError: threshold temperature")
        else .error (.invalidModel "AssertionError: above or below")
    else if ty = "mean_work_loss" then
      match levels with
      | [] => .error (.invalidModel "IndexError: list index out of range")
      | l0 :: _ =>
        if l0 ∈ ["low", "medium", "high"] then
          .ok (osc_chronic_heat_namespace ++ "/" ++
            (ty ++ "_" ++ l0 ++ "_" ++ scenario ++ "_" ++ toString year))
        else .error (.invalidModel "AssertionError: work intensity")
    else .error (.invalidModel "valid types are {valid_types}")

/-- Type of a source-path resolver (the `SourcePath` protocol): maps
(model, scenario, year) to a dataset path, possibly raising. -/
def SourcePath : Type :=
  String → String → Int → Except HazardError String

/-- Helper for `py_replace`: fuel-indexed scan replacing every occurrence of
`pat` (non-empty in all uses) by `repl`; `fuel` bounds the number of steps and
is instantiated with the string length, which suffices. -/
def py_replace_go (pat repl : List Char) : Nat → List Char → List Char
  | 0, s => s
  | _ + 1, [] => []
  | n + 1, c :: cs =>
    if pat.isPrefixOf (c :: cs) then
      repl ++ py_replace_go pat repl n (List.drop (pat.length - 1) cs)
    else c :: py_replace_go pat repl n cs

/-- Replaces every occurrence of `pat` in `s` by `repl` (leftmost scan). -/
def py_replace (s pat repl : String) : String :=
  String.mk (py_replace_go pat.data repl.data s.data.length s.data)

/-- Embedding of `array_name.format(id=…, scenario=…, year=…)`: Python
`str.format` for templates whose fields are `{id}`, `{scenario}` and `{year}`,
modelled as a leftmost replacement of each field. -/
def format_id_scenario_year (template id scenario : String) (year : Int) : String :=
  py_replace (py_replace (py_replace template "{id}" id) "{scenario}" scenario)
    "{year}" (toString year)

/-- Embedding of `str(PosixPath(a, b))` for the relative resource paths this
module joins: concatenation with a slash separator. -/
def posixpath_join (a b : String) : String :=
  a ++ "/" ++ b

/-- Modelled from the spec: a scenario record of a registered hazard resource,
carrying its identifier string (spec section 3, Resource). The inventory
collaborator is not part of this module. -/
structure ResourceScenario where
  id : String
  deriving Repr, DecidableEq

/-- Modelled from the spec: a registered hazard resource with a dataset root
`path`, an `array_name` template over `{id, scenario, year}`, and an ordered
list of supported scenarios (spec section 3, Resource). -/
structure HazardResource where
  path : String
  array_name : String
  scenarios : List ResourceScenario
  deriving Repr, DecidableEq

/-- Modelled from the spec: the inventory collaborator, a mapping from
(hazard type, resource id) to an ordered sequence of resource records (spec
section 6), given as an association list with distinct keys. -/
structure Inventory where
  resources_by_type_id : List ((String × String) × List HazardResource)

/-- Translation of the dict comprehension in `get_source_path_generic`:
`dict((id, resources[0]) for ((htype, id), resources) in … if htype ==
hazard_type)`. The keys of `resources_by_type_id` are distinct, so an
association list with first-match lookup has the same semantics as the Python
dict. An empty resource list would raise IndexError in the source at
construction time; here such entries produce no mapping entry, and the
theorems that rely on the mapping assume resource lists are non-empty. -/
def resources_dict (inventory : Inventory) (hazard_type : String) :
    List (String × HazardResource) :=
  inventory.resources_by_type_id.filterMap fun entry =>
    if entry.1.1 = hazard_type then entry.2.head?.map (fun r => (entry.1.2, r)) else none

/-- Translation of `get_source_path_generic` and the closure it returns (the
configuration arguments are curried in place of the closure capture). The
external taxonomy function `hazards.hazard_class` is a parameter (spec section
6), and the embedded `Dict[type, SourcePath]` is an association list keyed by
the class name; a missing class key is Python KeyError. A found model formats
the resource template with the proxy scenario: RCP-normalized exactly when the
resource's first declared scenario id starts with "rcp". A lookup miss with no
embedded fallback returns `none` (Python `None`). -/
def get_source_path_generic (hazard_class : String → String) (inventory : Inventory)
    (hazard_type : String) (embedded : Option (List (String × SourcePath)))
    (model scenario : String) (year : Int) : Except HazardError (Option String) :=
  match (resources_dict inventory hazard_type).lookup model with
  | none =>
    match embedded with
    | none => .ok none
    | some emb =>
      match emb.lookup (hazard_class hazard_type) with
      | none => .error (.invalidModel "KeyError: hazard class")
      | some sp => (sp model scenario year).map some
  | some resource =>
    match resource.scenarios with
    | [] => .error (.invalidModel "IndexError: scenarios is empty")
    | s0 :: _ =>
      match
        if py_startswith "rcp" s0.id then cmip6_scenario_to_rcp scenario else .ok scenario
      with
      | .error e => .error e
      | .ok proxy_scenario =>
        .ok (some (posixpath_join resource.path
          (format_id_scenario_year resource.array_name model proxy_scenario year)))

/-- Modelled from the spec: the external array-store reader (spec section 6).
`get_curves(path, longitudes, latitudes, interpolation)` returns a 2-D numeric
array indexed [coordinate, dimension] (a list of rows) and the ordered
dimension labels (return periods). The reader's own construction from a store
is outside this core. Numeric values are represented by rationals. -/
structure ZarrReader where
  get_curves : String → List ℚ → List ℚ → String → List (List ℚ) × List ℚ

/-- State captured by `HazardDataProvider.__init__`: the bound source-path
resolver, the reader, and the validated interpolation mode. The acute and
chronic subclasses add no state; their methods are defined on this structure
below. -/
structure HazardDataProvider where
  get_source_path : SourcePath
  reader : ZarrReader
  interpolation : String

/-- Translation of `HazardDataProvider.__init__`: the interpolation argument
(`Optional[str]`, default `"floor"`; `none` models an explicit `None`) must be
the string "floor" or the string "linear", else ValueError
(InvalidConfiguration) is raised at construction time. -/
def HazardDataProvider.init (get_source_path : SourcePath) (reader : ZarrReader)
    (interpolation : Option String) : Except HazardError HazardDataProvider :=
  match interpolation with
  | some s =>
    if s = "floor" ∨ s = "linear" then .ok ⟨get_source_path, reader, s⟩
    else .error (.invalidConfiguration "interpolation must be floor or linear")
  | none => .error (.invalidConfiguration "interpolation must be floor or linear")

/-- Translation of `AcuteHazardDataProvider.get_intensity_curves`: resolve the
path, delegate to the reader, return (curves, return_periods) unreshaped.
A path-resolution failure propagates unchanged. -/
def HazardDataProvider.get_intensity_curves (p : HazardDataProvider)
    (longitudes latitudes : List ℚ) (model scenario : String) (year : Int) :
    Except HazardError (List (List ℚ) × List ℚ) :=
  match p.get_source_path model scenario year with
  | .error e => .error e
  | .ok path => .ok (p.reader.get_curves path longitudes latitudes p.interpolation)

/-- Translation of `ChronicHazardDataProvider.get_parameters`: resolve the
path, delegate identically, and return `parameters[:, 0]` — column 0 of the
2-D array, the return-period axis discarded. Row indexing `row[0]` is modelled
by `headD 0` (the reader's rows are non-empty whenever the numpy expression is
defined). -/
def HazardDataProvider.get_parameters (p : HazardDataProvider)
    (longitudes latitudes : List ℚ) (model scenario : String) (year : Int) :
    Except HazardError (List ℚ) :=
  match p.get_source_path model scenario year with
  | .error e => .error e
  | .ok path =>
    .ok ((p.reader.get_curves path longitudes latitudes p.interpolation).1.map
      fun row => row.headD 0)

example : format_id_scenario_year "arr_{id}_{scenario}_{year}" "m" "rcp4p5" 2050 =
    "arr_m_rcp4p5_2050" := by decide
example :
    get_source_path_generic (fun _ => "c") ⟨[(("RiverineInundation", "modelA"),
      [⟨"riverine", "arr_{id}_{scenario}_{year}", [⟨"rcp4p5"⟩]⟩])]⟩
      "RiverineInundation" none "modelA" "ssp245" 2050 =
    .ok (some "riverine/arr_modelA_rcp4p5_2050") := by decide
example :
    get_source_path_generic (fun _ => "c") ⟨[]⟩ "RiverineInundation" none
      "modelA" "ssp245" 2050 = .ok none := by decide

/-- Classifies a resolver outcome as an InvalidModel failure (spec section 7:
bad sub-component, missing required segment, or unknown family type). -/
def is_invalid_model_error : Except HazardError String → Bool
  | .error (.invalidModel _) => true
  | _ => false

/-- C1: the scenario normalizer `cmip6_scenario_to_rcp` maps "ssp126" to
"rcp2p6", "ssp245" to "rcp4p5" and "ssp585" to "rcp8p5"; each of "rcp2p6",
"rcp4p5", "rcp8p5" and "historical" is returned unchanged (a fixed point);
and every other input string fails with an InvalidScenario error. -/
theorem C1_scenario_normalizer :
    cmip6_scenario_to_rcp "ssp126" = .ok "rcp2p6" ∧
    cmip6_scenario_to_rcp "ssp245" = .ok "rcp4p5" ∧
    cmip6_scenario_to_rcp "ssp585" = .ok "rcp8p5" ∧
    (∀ s ∈ ["rcp2p6", "rcp4p5", "rcp8p5", "historical"],
      cmip6_scenario_to_rcp s = .ok s) ∧
    (∀ s : String,
      s ∉ ["ssp126", "ssp245", "ssp585", "rcp2p6", "rcp4p5", "rcp8p5", "historical"] →
      cmip6_scenario_to_rcp s = .error (.invalidScenario s)) := by
  refine ⟨by decide, by decide, by decide, by decide, ?_⟩
  intro s hs
  simp only [List.mem_cons, not_or] at hs
  obtain ⟨h1, h2, h3, h4, h5, h6, h7, -⟩ := hs
  simp [cmip6_scenario_to_rcp, h1, h2, h3, h4, h5, h6, h7]

/-- Witness for C1 at the concrete inputs "historical" (fixed point) and
"ssp999" (rejected with InvalidScenario). -/
theorem C1_scenario_normalizer_witness :
    cmip6_scenario_to_rcp "historical" = .ok "historical" ∧
    cmip6_scenario_to_rcp "ssp999" = .error (.invalidScenario "ssp999") :=
  ⟨C1_scenario_normalizer.2.2.2.1 "historical" (by decide),
   C1_scenario_normalizer.2.2.2.2 "ssp999" (by decide)⟩

/-- Helper: a string built as `p ++ (q ++ s ++ "_" ++ y)` ends in
`s ++ "_" ++ y` after some stem. -/
theorem append_ends_with_tail (p q s y : String) :
    ∃ stem, p ++ (q ++ s ++ "_" ++ y) = stem ++ s ++ "_" ++ y :=
  ⟨p ++ q, by simp only [String.append_assoc]⟩

/-- C4: `get_source_path_osc_chronic_heat` on model "mean_work_loss/high",
scenario "ssp585", year 2100 returns
"chronic_heat/osc/v1/mean_work_loss_high_ssp585_2100", and in general every
path this resolver returns embeds the caller's scenario verbatim (no RCP
normalization), followed by the year. -/
theorem C4_osc_chronic_heat_path :
    get_source_path_osc_chronic_heat "mean_work_loss/high" "ssp585" 2100 =
      .ok "chronic_heat/osc/v1/mean_work_loss_high_ssp585_2100" ∧
    ∀ model scenario : String, ∀ year : Int, ∀ out : String,
      get_source_path_osc_chronic_heat model scenario year = .ok out →
      ∃ stem, out = stem ++ scenario ++ "_" ++ toString year := by
  refine ⟨by decide, ?_⟩
  intro model scenario year out h
  unfold get_source_path_osc_chronic_heat at h
  repeat' split at h
  all_goals try exact Except.noConfusion h
  all_goals injection h with h
  all_goals subst h
  all_goals exact append_ends_with_tail _ _ _ _

/-- Witness for C4: the concrete path of the end-to-end scenario ends in the
verbatim scenario "ssp585" and year 2100. -/
theorem C4_osc_chronic_heat_path_witness :
    ∃ stem, "chronic_heat/osc/v1/mean_work_loss_high_ssp585_2100" =
      stem ++ "ssp585" ++ "_" ++ toString (2100 : Int) :=
  C4_osc_chronic_heat_path.2 "mean_work_loss/high" "ssp585" 2100
    "chronic_heat/osc/v1/mean_work_loss_high_ssp585_2100" (by decide)

/-- C5: for every WRI coastal model `sub/perc` with `sub` in {wtsub, nosub}
and `perc` in {"95", "5", "50"}, the resolver returns
"inundation/wri/v2/inuncoast_{rcp}_{sub}_{year}_{suffix}" with suffix "0",
"0_perc_05", "0_perc_50" respectively, where rcp is the normalized scenario;
and a model omitting the percentile resolves like `perc = "95"`. -/
theorem C5_wri_coastal_inundation_paths :
    ∀ sub perc suffix scenario rcp : String, ∀ year : Int,
      sub ∈ ["wtsub", "nosub"] →
      (perc, suffix) ∈ [("95", "0"), ("5", "0_perc_05"), ("50", "0_perc_50")] →
      cmip6_scenario_to_rcp scenario = .ok rcp →
      get_source_path_wri_coastal_inundation (sub ++ "/" ++ perc) scenario year =
        .ok ("inundation/wri/v2/inuncoast_" ++ rcp ++ "_" ++ sub ++ "_" ++ toString year
          ++ "_" ++ suffix) ∧
      get_source_path_wri_coastal_inundation sub scenario year =
        get_source_path_wri_coastal_inundation (sub ++ "/" ++ "95") scenario year := by
  intro sub perc suffix scenario rcp year hsub hperc hrcp
  fin_cases hsub <;> fin_cases hperc <;>
    exact ⟨by unfold get_source_path_wri_coastal_inundation; rw [hrcp]; rfl, rfl⟩

/-- Witness for C5 at sub = "nosub", perc = "5", scenario "ssp585", year
2080. -/
theorem C5_wri_coastal_inundation_paths_witness :
    get_source_path_wri_coastal_inundation ("nosub" ++ "/" ++ "5") "ssp585" 2080 =
      .ok ("inundation/wri/v2/inuncoast_" ++ "rcp8p5" ++ "_" ++ "nosub" ++
        "_" ++ toString (2080 : Int) ++ "_" ++ "0_perc_05") ∧
    get_source_path_wri_coastal_inundation "nosub" "ssp585" 2080 =
      get_source_path_wri_coastal_inundation ("nosub" ++ "/" ++ "95") "ssp585" 2080 :=
  C5_wri_coastal_inundation_paths "nosub" "5" "0_perc_05" "ssp585" "rcp8p5" 2080
    (by decide) (by decide) (by decide)

/-- C6: `get_source_path_wri_riverine_inundation` on model "00000NorESM1-M",
scenario "rcp8p5", year 2050 returns
"inundation/wri/v2/inunriver_rcp8p5_00000NorESM1-M_2050"; in general, for any
scenario the normalizer accepts, the model string is passed through
unvalidated as a raw path segment. -/
theorem C6_wri_riverine_inundation_path :
    get_source_path_wri_riverine_inundation "00000NorESM1-M" "rcp8p5" 2050 =
      .ok "inundation/wri/v2/inunriver_rcp8p5_00000NorESM1-M_2050" ∧
    ∀ model scenario : String, ∀ year : Int, ∀ rcp : String,
      cmip6_scenario_to_rcp scenario = .ok rcp →
      get_source_path_wri_riverine_inundation model scenario year =
        .ok ("inundation/wri/v2/inunriver_" ++ rcp ++ "_" ++ model ++ "_" ++ toString year) := by
  refine ⟨by decide, ?_⟩
  intro model scenario year rcp h
  unfold get_source_path_wri_riverine_inundation
  rw [h]
  rfl

/-- Witness for C6 with model "m", scenario "ssp245" (normalized to
"rcp4p5"), year 2020. -/
theorem C6_wri_riverine_inundation_path_witness :
    get_source_path_wri_riverine_inundation "m" "ssp245" 2020 =
      .ok ("inundation/wri/v2/inunriver_" ++ "rcp4p5" ++ "_" ++ "m" ++ "_" ++
        toString (2020 : Int)) :=
  C6_wri_riverine_inundation_path.2 "m" "ssp245" 2020 "rcp4p5" (by decide)

/-- C10: a WRI coastal model string with three or more slash-separated
components whose first component is a valid subsidence token resolves
identically to the model truncated to its first two components: every
component after the second is ignored. -/
theorem C10_coastal_ignores_extra_components :
    ∀ model truncated sub comp1 : String, ∀ rest : List String,
      ∀ scenario : String, ∀ year : Int,
      sub ∈ ["wtsub", "nosub"] →
      py_split '/' model = sub :: comp1 :: rest →
      py_split '/' truncated = [sub, comp1] →
      get_source_path_wri_coastal_inundation model scenario year =
        get_source_path_wri_coastal_inundation truncated scenario year := by
  intro model truncated sub comp1 rest scenario year _ hm ht
  unfold get_source_path_wri_coastal_inundation
  rw [hm, ht]

/-- Witness for C10: "wtsub/95/extra" resolves identically to "wtsub/95". -/
theorem C10_coastal_ignores_extra_components_witness :
    get_source_path_wri_coastal_inundation "wtsub/95/extra" "ssp126" 2030 =
      get_source_path_wri_coastal_inundation "wtsub/95" "ssp126" 2030 :=
  C10_coastal_ignores_extra_components "wtsub/95/extra" "wtsub/95" "wtsub" "95"
    ["extra"] "ssp126" 2030 (by decide) (by decide) (by decide)

/-- C2: for every model found in the generic resolver's mapping, the resolver
built by `get_source_path_generic` RCP-normalizes the caller's scenario if and
only if the resource's first declared scenario id starts with "rcp" (the
result is the normalizer's output mapped into the formatted template, so a
normalizer failure propagates); otherwise the caller's scenario is used
verbatim when formatting the resource's array-name template. -/
theorem C2_generic_resolver_proxy_scenario :
    ∀ (hazard_class : String → String) (inventory : Inventory) (hazard_type : String)
      (embedded : Option (List (String × SourcePath))) (model scenario : String)
      (year : Int) (resource : HazardResource) (s0 : ResourceScenario)
      (srest : List ResourceScenario),
      (resources_dict inventory hazard_type).lookup model = some resource →
      resource.scenarios = s0 :: srest →
      (py_startswith "rcp" s0.id = true →
        get_source_path_generic hazard_class inventory hazard_type embedded
            model scenario year =
          Except.map (fun proxy => some (posixpath_join resource.path
              (format_id_scenario_year resource.array_name model proxy year)))
            (cmip6_scenario_to_rcp scenario)) ∧
      (py_startswith "rcp" s0.id = false →
        get_source_path_generic hazard_class inventory hazard_type embedded
            model scenario year =
          .ok (some (posixpath_join resource.path
            (format_id_scenario_year resource.array_name model scenario year)))) := by
  intro hcl inv htype emb model scenario year resource s0 srest hlook hscen
  obtain ⟨rpath, rname, rscen⟩ := resource
  replace hscen : rscen = s0 :: srest := hscen
  subst hscen
  constructor
  · intro hrcp
    unfold get_source_path_generic
    rw [hlook]
    show ((match (if py_startswith "rcp" s0.id then cmip6_scenario_to_rcp scenario
        else Except.ok scenario) with
      | Except.error e => Except.error e
      | Except.ok proxy_scenario => Except.ok (some (posixpath_join rpath
          (format_id_scenario_year rname model proxy_scenario year)))) :
      Except HazardError (Option String)) = _
    rw [hrcp]
    cases hc : cmip6_scenario_to_rcp scenario <;> rfl
  · intro hrcp
    unfold get_source_path_generic
    rw [hlook]
    show ((match (if py_startswith "rcp" s0.id then cmip6_scenario_to_rcp scenario
        else Except.ok scenario) with
      | Except.error e => Except.error e
      | Except.ok proxy_scenario => Except.ok (some (posixpath_join rpath
          (format_id_scenario_year rname model proxy_scenario year)))) :
      Except HazardError (Option String)) = _
    rw [hrcp]
    rfl

/-- Witness for C2: a resource whose first scenario id is "rcp4p5" makes the
resolver normalize "ssp245", and one whose first scenario id is "ssp245"
passes "ssp245" through verbatim. -/
theorem C2_generic_resolver_proxy_scenario_witness :
    get_source_path_generic (fun _ => "cls")
        ⟨[(("RiverineInundation", "modelA"),
          [⟨"riverine", "arr_{id}_{scenario}_{year}", [⟨"rcp4p5"⟩]⟩])]⟩
        "RiverineInundation" none "modelA" "ssp245" 2050 =
      Except.map (fun proxy => some (posixpath_join "riverine"
          (format_id_scenario_year "arr_{id}_{scenario}_{year}" "modelA" proxy 2050)))
        (cmip6_scenario_to_rcp "ssp245") ∧
    get_source_path_generic (fun _ => "cls")
        ⟨[(("RiverineInundation", "modelB"),
          [⟨"riverine", "arr_{id}_{scenario}_{year}", [⟨"ssp245"⟩]⟩])]⟩
        "RiverineInundation" none "modelB" "ssp245" 2050 =
      .ok (some (posixpath_join "riverine"
        (format_id_scenario_year "arr_{id}_{scenario}_{year}" "modelB" "ssp245" 2050))) :=
  ⟨(C2_generic_resolver_proxy_scenario (fun _ => "cls")
      ⟨[(("RiverineInundation", "modelA"),
        [⟨"riverine", "arr_{id}_{scenario}_{year}", [⟨"rcp4p5"⟩]⟩])]⟩
      "RiverineInundation" none "modelA" "ssp245" 2050
      ⟨"riverine", "arr_{id}_{scenario}_{year}", [⟨"rcp4p5"⟩]⟩ ⟨"rcp4p5"⟩ []
      (by decide) (by decide)).1 (by decide),
   (C2_generic_resolver_proxy_scenario (fun _ => "cls")
      ⟨[(("RiverineInundation", "modelB"),
        [⟨"riverine", "arr_{id}_{scenario}_{year}", [⟨"ssp245"⟩]⟩])]⟩
      "RiverineInundation" none "modelB" "ssp245" 2050
      ⟨"riverine", "arr_{id}_{scenario}_{year}", [⟨"ssp245"⟩]⟩ ⟨"ssp245"⟩ []
      (by decide) (by decide)).2 (by decide)⟩

/-- C3: for every (model, scenario, year), if the model is not in the generic
resolver's mapping and no embedded fallback map was supplied, the resolver
returned by `get_source_path_generic` returns the explicit absent result
`none` and never raises (the outcome is `.ok`, not `.error`). -/
theorem C3_generic_resolver_absent :
    ∀ (hazard_class : String → String) (inventory : Inventory) (hazard_type : String)
      (model scenario : String) (year : Int),
      (resources_dict inventory hazard_type).lookup model = none →
      get_source_path_generic hazard_class inventory hazard_type none
        model scenario year = .ok none := by
  intro hcl inv htype model scenario year hlook
  unfold get_source_path_generic
  rw [hlook]

/-- Witness for C3: the empty inventory maps no model, so the resolver with no
embedded fallback yields the absent result. -/
theorem C3_generic_resolver_absent_witness :
    get_source_path_generic (fun _ => "cls") ⟨[]⟩ "ChronicHeat" none
      "mean_work_loss/high" "ssp585" 2050 = .ok none :=
  C3_generic_resolver_absent (fun _ => "cls") ⟨[]⟩ "ChronicHeat"
    "mean_work_loss/high" "ssp585" 2050 (by decide)

/-- C7: whenever the acute provider's `get_intensity_curves` returns a curve
array and return periods for given coordinates and (model, scenario, year), a
chronic provider with the same resolver, reader and interpolation mode returns
from `get_parameters` exactly column 0 of that array (the return-period axis
discarded). -/
theorem C7_chronic_parameters_column0 :
    ∀ (p : HazardDataProvider) (longitudes latitudes : List ℚ)
      (model scenario : String) (year : Int)
      (curves : List (List ℚ)) (return_periods : List ℚ),
      p.get_intensity_curves longitudes latitudes model scenario year =
        .ok (curves, return_periods) →
      p.get_parameters longitudes latitudes model scenario year =
        .ok (curves.map fun row => row.headD 0) := by
  intro p lons lats model scenario year curves rps h
  unfold HazardDataProvider.get_intensity_curves at h
  split at h
  · exact Except.noConfusion h
  · rename_i path hp
    injection h with h
    unfold HazardDataProvider.get_parameters
    rw [hp]
    show Except.ok ((p.reader.get_curves path lons lats p.interpolation).1.map
      fun row => row.headD 0) = _
    rw [h]

/-- Witness for C7: a reader returning two rows makes `get_parameters` return
the two row heads. -/
theorem C7_chronic_parameters_column0_witness :
    HazardDataProvider.get_parameters
        ⟨fun _ _ _ => .ok "p0", ⟨fun _ _ _ _ => ([[(3 : ℚ), 4], [5, 6]], [10, 20])⟩, "floor"⟩
        [1, 2] [7, 8] "m" "s" 2050 =
      .ok ([[(3 : ℚ), 4], [5, 6]].map fun row => row.headD 0) :=
  C7_chronic_parameters_column0
    ⟨fun _ _ _ => .ok "p0", ⟨fun _ _ _ _ => ([[(3 : ℚ), 4], [5, 6]], [10, 20])⟩, "floor"⟩
    [1, 2] [7, 8] "m" "s" 2050 [[3, 4], [5, 6]] [10, 20] rfl

/-- C8: constructing a hazard data provider with an interpolation mode other
than the string "floor" or the string "linear" (including an explicit `None`)
fails immediately with an InvalidConfiguration error; construction with either
legal string succeeds and stores that mode. -/
theorem C8_interpolation_validation :
    ∀ (sp : SourcePath) (reader : ZarrReader),
      (∀ s : String, s = "floor" ∨ s = "linear" →
        HazardDataProvider.init sp reader (some s) = .ok ⟨sp, reader, s⟩) ∧
      (∀ interpolation : Option String,
        interpolation ≠ some "floor" → interpolation ≠ some "linear" →
        HazardDataProvider.init sp reader interpolation =
          .error (.invalidConfiguration "interpolation must be floor or linear")) := by
  intro sp reader
  constructor
  · intro s hs
    unfold HazardDataProvider.init
    show ((if s = "floor" ∨ s = "linear" then Except.ok ⟨sp, reader, s⟩
      else Except.error (HazardError.invalidConfiguration
        "interpolation must be floor or linear")) :
      Except HazardError HazardDataProvider) = _
    rw [if_pos hs]
  · intro interpolation h1 h2
    cases interpolation with
    | none => rfl
    | some s =>
      have hneg : ¬(s = "floor" ∨ s = "linear") := by
        rintro (rfl | rfl)
        · exact h1 rfl
        · exact h2 rfl
      unfold HazardDataProvider.init
      show ((if s = "floor" ∨ s = "linear" then Except.ok ⟨sp, reader, s⟩
        else Except.error (HazardError.invalidConfiguration
          "interpolation must be floor or linear")) :
        Except HazardError HazardDataProvider) = _
      rw [if_neg hneg]

/-- Witness for C8: "floor" is accepted, "nearest" is rejected with
InvalidConfiguration. -/
theorem C8_interpolation_validation_witness :
    HazardDataProvider.init (fun _ _ _ => .ok "p0") ⟨fun _ _ _ _ => ([], [])⟩
        (some "floor") =
      .ok ⟨fun _ _ _ => .ok "p0", ⟨fun _ _ _ _ => ([], [])⟩, "floor"⟩ ∧
    HazardDataProvider.init (fun _ _ _ => .ok "p0") ⟨fun _ _ _ _ => ([], [])⟩
        (some "nearest") =
      .error (.invalidConfiguration "interpolation must be floor or linear") :=
  ⟨(C8_interpolation_validation (fun _ _ _ => .ok "p0")
      ⟨fun _ _ _ _ => ([], [])⟩).1 "floor" (Or.inl rfl),
   (C8_interpolation_validation (fun _ _ _ => .ok "p0")
      ⟨fun _ _ _ _ => ([], [])⟩).2 (some "nearest") (by decide) (by decide)⟩

/-- C9: the OS-C chronic-heat resolver fails with an InvalidModel error for
every "mean_degree_days" model that does not carry a valid level1 token
(above/below) and a valid level2 token (18c/32c) in its next two components,
for every "mean_work_loss" model whose intensity token is outside
{low, medium, high} or missing, and for every model whose first component is
neither "mean_degree_days" nor "mean_work_loss". -/
theorem C9_osc_chronic_heat_invalid_model :
    (∀ model scenario : String, ∀ year : Int, ∀ levels : List String,
      py_split '/' model = "mean_degree_days" :: levels →
      (¬ ∃ l0 l1 rest, levels = l0 :: l1 :: rest ∧
        l0 ∈ ["above", "below"] ∧ l1 ∈ ["18c", "32c"]) →
      is_invalid_model_error
        (get_source_path_osc_chronic_heat model scenario year) = true) ∧
    (∀ model scenario : String, ∀ year : Int, ∀ levels : List String,
      py_split '/' model = "mean_work_loss" :: levels →
      (¬ ∃ l0 rest, levels = l0 :: rest ∧ l0 ∈ ["low", "medium", "high"]) →
      is_invalid_model_error
        (get_source_path_osc_chronic_heat model scenario year) = true) ∧
    (∀ model scenario : String, ∀ year : Int, ∀ ty : String, ∀ rest : List String,
      py_split '/' model = ty :: rest →
      ty ∉ ["mean_degree_days", "mean_work_loss"] →
      is_invalid_model_error
        (get_source_path_osc_chronic_heat model scenario year) = true) := by
  refine ⟨?_, ?_, ?_⟩
  · intro model scenario year levels hsplit hbad
    unfold get_source_path_osc_chronic_heat
    rw [hsplit]
    cases levels with
    | nil => rfl
    | cons l0 ltail =>
      cases ltail with
      | nil =>
        by_cases h0 : l0 ∈ ["above", "below"]
        · simp [is_invalid_model_error, h0]
        · simp [is_invalid_model_error, h0]
      | cons l1 ltail2 =>
        by_cases h0 : l0 ∈ ["above", "below"]
        · by_cases h1 : l1 ∈ ["18c", "32c"]
          · exact absurd ⟨l0, l1, ltail2, rfl, h0, h1⟩ hbad
          · simp [is_invalid_model_error, h0, h1]
        · simp [is_invalid_model_error, h0]
  · intro model scenario year levels hsplit hbad
    unfold get_source_path_osc_chronic_heat
    rw [hsplit]
    cases levels with
    | nil => rfl
    | cons l0 ltail =>
      by_cases h0 : l0 ∈ ["low", "medium", "high"]
      · exact absurd ⟨l0, ltail, rfl, h0⟩ hbad
      · simp [is_invalid_model_error, h0]
  · intro model scenario year ty rest hsplit hne
    unfold get_source_path_osc_chronic_heat
    rw [hsplit]
    simp only [List.mem_cons, not_or] at hne
    obtain ⟨h1, h2, -⟩ := hne
    simp [is_invalid_model_error, h1, h2]

/-- Witness for C9 at three concrete models: "mean_degree_days/above" (level2
missing), "mean_work_loss/extreme" (invalid intensity), "wind/gust" (unknown
family type). -/
theorem C9_osc_chronic_heat_invalid_model_witness :
    is_invalid_model_error
      (get_source_path_osc_chronic_heat "mean_degree_days/above" "ssp585" 2050) = true ∧
    is_invalid_model_error
      (get_source_path_osc_chronic_heat "mean_work_loss/extreme" "ssp585" 2050) = true ∧
    is_invalid_model_error
      (get_source_path_osc_chronic_heat "wind/gust" "ssp585" 2050) = true :=
  ⟨C9_osc_chronic_heat_invalid_model.1 "mean_degree_days/above" "ssp585" 2050
      ["above"] (by decide)
      (by rintro ⟨l0, l1, rest, h, h0, h1⟩; simp at h),
   C9_osc_chronic_heat_invalid_model.2.1 "mean_work_loss/extreme" "ssp585" 2050
      ["extreme"] (by decide)
      (by rintro ⟨l0, rest, h, h0⟩; simp at h; obtain ⟨rfl, -⟩ := h; revert h0; decide),
   C9_osc_chronic_heat_invalid_model.2.2 "wind/gust" "ssp585" 2050
      "wind" ["gust"] (by decide) (by decide)⟩
example : cmip6_scenario_to_rcp "ssp126" = .ok "rcp2p6" := by decide
example : get_source_path_osc_chronic_heat "mean_work_loss/high" "ssp585" 2100 =
    .ok "chronic_heat/osc/v1/mean_work_loss_high_ssp585_2100" := by decide
example : get_source_path_wri_riverine_inundation "00000NorESM1-M" "rcp8p5" 2050 =
    .ok "inundation/wri/v2/inunriver_rcp8p5_00000NorESM1-M_2050" := by decide
example : get_source_path_wri_coastal_inundation "wtsub/95" "ssp126" 2030 =
    .ok "inundation/wri/v2/inuncoast_rcp2p6_wtsub_2030_0" := by decide
example : get_source_path_wri_coastal_inundation "wtsub" "ssp126" 2030 =
    .ok "inundation/wri/v2/inuncoast_rcp2p6_wtsub_2030_0" := by decide
example : py_split '/' "wtsub/95" = ["wtsub", "95"] := by decide
example : py_split '/' "mean_work_loss/high" = ["mean_work_loss", "high"] := by decide
example : py_split '/' "" = [""] := by decide
example : py_startswith "rcp" "rcp4p5" = true := by decide
